import Mathlib

/-
  Verification development for the LaxCounter repository.

  The repository contains two motion-event inference cores:
  * `src/ball-detector.js` — a velocity-reversal wall-hit detector
    (class BallDetector), and
  * the pose-based rep counter scripts in `src/unnamed/part_000`
    (two variants of `onResults` plus their statistics helpers).

  The definitions below shallowly embed the algorithmic parts of that
  code: timestamps and coordinates become real numbers, mutable
  module/class state becomes explicit state records, and each
  frame-callback or button handler becomes a state-transition function.
  DOM reads/writes are modelled as fields holding the displayed values;
  drawing, audio and camera glue carry no tracker state and are omitted.
-/

namespace LaxCounter

/-- Two-argument arctangent as used by JavaScript `Math.atan2(y, x)`,
realised as the argument of the complex number `x + y i`. -/
noncomputable def atan2 (y x : ℝ) : ℝ := Complex.arg ⟨x, y⟩

/-! ## Ball hit detector (`src/ball-detector.js`) -/

/-- One entry of `this.ballPositions`: the object pushed in
`updateBallTracking` (`{x, y, time, confidence}`). -/
structure BallPos where
  x : ℝ
  y : ℝ
  time : ℝ
  confidence : ℝ

/-- A candidate ball position delivered by the upstream detector
(`{x, y, confidence}` as returned by `detectBallWithAI` /
`detectBallByColor`). -/
structure DetPos where
  x : ℝ
  y : ℝ
  confidence : ℝ

/-- Result of `calculateVelocity`: `{x, y, magnitude}`. -/
structure Velocity where
  x : ℝ
  y : ℝ
  magnitude : ℝ

/-- `calculateVelocity(pos1, pos2)` from `src/ball-detector.js`
lines 369-381. -/
noncomputable def calculateVelocity (pos1 pos2 : BallPos) : Velocity :=
  let dx := pos2.x - pos1.x
  let dy := pos2.y - pos1.y
  let dt := pos2.time - pos1.time
  if dt = 0 then ⟨0, 0, 0⟩
  else
    let vx := dx / dt * 1000
    let vy := dy / dt * 1000
    let magnitude := Real.sqrt (vx ^ 2 + vy ^ 2)
    ⟨vx, vy, magnitude⟩

/-- `calculateDirectionChange(velocity1, velocity2)` from
`src/ball-detector.js` lines 383-393. -/
noncomputable def calculateDirectionChange (velocity1 velocity2 : Velocity) : ℝ :=
  if velocity1.magnitude = 0 ∨ velocity2.magnitude = 0 then 0
  else
    let angle1 := atan2 velocity1.y velocity1.x
    let angle2 := atan2 velocity2.y velocity2.x
    let angleDiff := |angle2 - angle1| * 180 / Real.pi
    if angleDiff > 180 then 360 - angleDiff else angleDiff

/-- The mutable tracker state of class `BallDetector` that the
detection algorithm reads or writes, including the displayed hit
counter text. -/
structure BallState where
  hitCount : ℕ
  hitCounterText : ℕ
  ballPositions : List BallPos
  lastBallPosition : Option DetPos
  velocityHistory : List Velocity
  sensitivity : ℝ
  velocityThreshold : ℝ
  directionChangeThreshold : ℝ
  minTimeBetweenHits : ℝ
  lastHitTime : ℝ
  maxPositionHistory : ℕ

/-- The state established by the `BallDetector` constructor
(lines 22-36): counters zero, empty histories, default thresholds. -/
noncomputable def initialBallState : BallState :=
  { hitCount := 0
    hitCounterText := 0
    ballPositions := []
    lastBallPosition := none
    velocityHistory := []
    sensitivity := 1.0
    velocityThreshold := 50
    directionChangeThreshold := 120
    minTimeBetweenHits := 1000
    lastHitTime := 0
    maxPositionHistory := 10 }

/-- `registerHit()` from lines 395-409: increments the counter and the
displayed value (animation and audio feedback carry no tracker state). -/
noncomputable def registerHit (s : BallState) : BallState :=
  { s with hitCount := s.hitCount + 1, hitCounterText := s.hitCount + 1 }

/-- `calculateVelocityAndDetectHit()` from lines 336-367. `now` stands
for `Date.now()` at this tick. -/
noncomputable def calculateVelocityAndDetectHit (s : BallState) (now : ℝ) : BallState :=
  let positions := s.ballPositions
  let current := positions.getD (positions.length - 1) ⟨0, 0, 0, 0⟩
  let previous := positions.getD (positions.length - 2) ⟨0, 0, 0, 0⟩
  let beforePrevious := positions.getD (positions.length - 3) ⟨0, 0, 0, 0⟩
  let velocity1 := calculateVelocity beforePrevious previous
  let velocity2 := calculateVelocity previous current
  let vh := s.velocityHistory ++ [velocity2]
  let vh2 := if vh.length > 5 then vh.tail else vh
  let s1 : BallState := { s with velocityHistory := vh2 }
  let directionChange := calculateDirectionChange velocity1 velocity2
  let speedChange := |velocity2.magnitude - velocity1.magnitude|
  let timeSinceLastHit := now - s1.lastHitTime
  if (directionChange > s1.directionChangeThreshold ∨
      speedChange > s1.velocityThreshold * s1.sensitivity) ∧
     timeSinceLastHit > s1.minTimeBetweenHits then
    { registerHit s1 with lastHitTime := now }
  else s1

/-- `updateBallTracking(position)` from lines 312-334.  `now` stands for
`Date.now()` at this tick (the source calls `Date.now()` twice in the
same synchronous tick; both occurrences are modelled by the same
value). -/
noncomputable def updateBallTracking (s : BallState) (position : DetPos) (now : ℝ) : BallState :=
  let sample : BallPos :=
    ⟨position.x, position.y, now, if position.confidence = 0 then 1 else position.confidence⟩
  let positions1 := s.ballPositions ++ [sample]
  let positions2 := if positions1.length > s.maxPositionHistory then positions1.tail else positions1
  let s1 : BallState := { s with ballPositions := positions2 }
  let s2 := if 3 ≤ positions2.length then calculateVelocityAndDetectHit s1 now else s1
  { s2 with lastBallPosition := some position }

/-- `resetCounter()` from lines 440-447. -/
noncomputable def resetCounter (s : BallState) : BallState :=
  { s with hitCount := 0, hitCounterText := 0, ballPositions := [],
           velocityHistory := [], lastHitTime := 0 }

/-! ## Pose-based rep counter (`src/unnamed/part_000`) -/

/-- The rep-counting state machine's state variable. -/
inductive RState where
  | READY
  | THROWING
  | CATCHING
deriving DecidableEq

/-- A MediaPipe pose landmark (`{x, y, z}` in normalized units). -/
structure Landmark where
  x : ℝ
  y : ℝ
  z : ℝ

/-- The three landmarks the rep counters read: right shoulder (12),
right elbow (14), right wrist (16). -/
structure PoseTriple where
  shoulder : Landmark
  elbow : Landmark
  wrist : Landmark

/-- A 2D point, as stored in `lastHandPos` by the first variant. -/
structure Point2 where
  x : ℝ
  y : ℝ

/-- `calculateAngle(a, b, c)`: identical in both script variants
(part_000 lines 189-199 and 364-374). -/
noncomputable def calculateAngle (a b c : Landmark) : ℝ :=
  let radians := atan2 (c.y - b.y) (c.x - b.x) - atan2 (a.y - b.y) (a.x - b.x)
  let angle := |radians * 180 / Real.pi|
  if angle > 180 then 360 - angle else angle

/-- Mutable state of the first (simpler) rep-counter variant. -/
structure RepState1 where
  repCount : ℕ
  repCounterText : ℕ
  state : RState
  lastHandPos : Option Point2

/-- `onResults(results)` of the first variant (part_000 lines 131-187),
restricted to its state effect.  `none` models a frame with no
`poseLandmarks`. -/
noncomputable def onResults1 : RepState1 → Option PoseTriple → RepState1
  | s, none => s
  | s, some t =>
    let elbowAngle := calculateAngle t.shoulder t.elbow t.wrist
    let wristPos : Point2 := ⟨t.wrist.x, t.wrist.y⟩
    let wristVelocity : Point2 :=
      match s.lastHandPos with
      | none => ⟨0, 0⟩
      | some p => ⟨wristPos.x - p.x, wristPos.y - p.y⟩
    let s1 : RepState1 := { s with lastHandPos := some wristPos }
    let throwThreshold : ℝ := 0.03
    match s1.state with
    | RState.READY =>
      if wristVelocity.x > throwThreshold ∧ elbowAngle > 100 then
        { s1 with state := RState.THROWING }
      else s1
    | RState.THROWING =>
      if wristVelocity.x < -throwThreshold then
        { s1 with state := RState.CATCHING }
      else s1
    | RState.CATCHING =>
      if Real.sqrt ((t.wrist.x - t.shoulder.x) ^ 2 + (t.wrist.y - t.shoulder.y) ^ 2) < 0.2 then
        { s1 with repCount := s1.repCount + 1, repCounterText := s1.repCount + 1,
                  state := RState.READY }
      else s1

/-- Mutable state of the second (richer) rep-counter variant, with the
displayed progress, RPM and consistency values as fields. -/
structure RepState2 where
  repCount : ℕ
  repCounterText : ℕ
  state : RState
  lastWristPos : Option Landmark
  stateChangeTime : ℝ
  sessionActive : Bool
  sessionStartTime : ℝ
  firstRepTime : ℝ
  repTimes : List ℝ
  lastRepTime : ℝ
  progressWidth : ℝ
  rpmText : ℤ
  consistencyText : ℤ

/-- The rep goal constant (`const repGoal = 50`). -/
def repGoal : ℕ := 50

/-- `updateProgressBar()` from part_000 lines 376-379. -/
noncomputable def updateProgressBar (s : RepState2) : RepState2 :=
  let progress := min ((s.repCount : ℝ) / (repGoal : ℝ)) 1
  { s with progressWidth := progress * 100 }

/-- `updateRPM()` from part_000 lines 381-386; `now` stands for
`Date.now()`. -/
noncomputable def updateRPM (s : RepState2) (now : ℝ) : RepState2 :=
  if s.repCount < 2 then s
  else
    let elapsedTime := (now - s.firstRepTime) / 60000
    { s with rpmText := round ((s.repCount : ℝ) / elapsedTime) }

/-- `updateConsistency()` from part_000 lines 413-424. -/
noncomputable def updateConsistency (s : RepState2) : RepState2 :=
  if s.repTimes.length < 2 then s
  else
    let mean := s.repTimes.sum / (s.repTimes.length : ℝ)
    let stdDev := Real.sqrt ((s.repTimes.map (fun x => (x - mean) ^ 2)).sum / (s.repTimes.length : ℝ))
    let consistency := max 0 (100 - stdDev / 5)
    { s with consistencyText := round consistency }

/-- `startBtn.onclick` from part_000 lines 388-392. -/
noncomputable def startClick (s : RepState2) (now : ℝ) : RepState2 :=
  { s with sessionActive := true, sessionStartTime := now }

/-- `pauseBtn.onclick` from part_000 lines 394-397. -/
noncomputable def pauseClick (s : RepState2) : RepState2 :=
  { s with sessionActive := false }

/-- `resetBtn.onclick` from part_000 lines 399-411. -/
noncomputable def resetClick (s : RepState2) : RepState2 :=
  { updateProgressBar
      { s with sessionActive := false, repCount := 0, firstRepTime := 0,
               repCounterText := 0, rpmText := 0, consistencyText := 100,
               repTimes := [], lastRepTime := 0 }
    with state := RState.READY }

/-- `onResults(results)` of the second variant (part_000 lines 254-362),
restricted to its state effect.  `none` models a frame with no
`poseLandmarks`; `now` stands for `Date.now()` during this tick. -/
noncomputable def onResults2 : RepState2 → Option PoseTriple → ℝ → RepState2
  | s, none, _ => s
  | s, some t, now =>
    if s.sessionActive then
      let s0 := if now - s.stateChangeTime > 2000 then { s with state := RState.READY } else s
      let elbowAngle := calculateAngle t.shoulder t.elbow t.wrist
      let wristPos : Landmark := ⟨t.wrist.x, t.wrist.y, t.wrist.z⟩
      let wristVelocity : Landmark :=
        match s0.lastWristPos with
        | none => ⟨0, 0, 0⟩
        | some p => ⟨wristPos.x - p.x, wristPos.y - p.y, wristPos.z - p.z⟩
      let s2 : RepState2 := { s0 with lastWristPos := some wristPos }
      let throwVelocityThreshold : ℝ := 0.02
      let minThrowAngle : ℝ := 120
      let minCatchAngle : ℝ := 80
      match s2.state with
      | RState.READY =>
        if wristVelocity.x > throwVelocityThreshold ∧
           wristVelocity.z < -throwVelocityThreshold ∧ elbowAngle > minThrowAngle then
          { s2 with state := RState.THROWING, stateChangeTime := now }
        else s2
      | RState.THROWING =>
        if wristVelocity.x < -throwVelocityThreshold then
          { s2 with state := RState.CATCHING, stateChangeTime := now }
        else s2
      | RState.CATCHING =>
        if Real.sqrt ((t.wrist.x - t.shoulder.x) ^ 2 + (t.wrist.y - t.shoulder.y) ^ 2) < 0.3 ∧
           elbowAngle < minCatchAngle then
          { updateConsistency (updateRPM (updateProgressBar
              { s2 with
                  repTimes := if s2.lastRepTime > 0 then s2.repTimes ++ [now - s2.lastRepTime]
                              else s2.repTimes,
                  lastRepTime := now,
                  firstRepTime := if s2.repCount = 0 then now else s2.firstRepTime,
                  repCount := s2.repCount + 1,
                  repCounterText := s2.repCount + 1 }) now)
            with state := RState.READY, stateChangeTime := now }
        else s2
    else s

/-- Modelled from the spec: the initial display values of the second
variant (the page markup holding the initial counter, RPM and
consistency texts is not under `src/`; the spec fixes the consistency
display's initial value at 100%).  The script variables themselves are
initialised as at part_000 lines 236-246, with `t0` the value of
`Date.now()` at script load. -/
noncomputable def initialRepState (t0 : ℝ) : RepState2 :=
  { repCount := 0
    repCounterText := 0
    state := RState.READY
    lastWristPos := none
    stateChangeTime := t0
    sessionActive := false
    sessionStartTime := 0
    firstRepTime := 0
    repTimes := []
    lastRepTime := 0
    progressWidth := 0
    rpmText := 0
    consistencyText := 100 }

/-! ## Theorems -/

/-- The two-argument arctangent always lies in `[-π, π]`. -/
theorem abs_atan2_le_pi (y x : ℝ) : |atan2 y x| ≤ Real.pi :=
  Complex.abs_arg_le_pi _

/-- C6: for sample pairs with zero elapsed time `calculateVelocity`
returns the all-zero velocity, and for velocity pairs where either
magnitude is zero `calculateDirectionChange` returns 0; both degenerate
cases yield a defined zero/neutral result (the embedded functions are
total, so no fault can be raised). -/
theorem degenerate_kinematics_zero (p1 p2 : BallPos) (v1 v2 : Velocity)
    (hdt : p2.time - p1.time = 0) (hmag : v1.magnitude = 0 ∨ v2.magnitude = 0) :
    calculateVelocity p1 p2 = ⟨0, 0, 0⟩ ∧ calculateDirectionChange v1 v2 = 0 := by
  constructor
  · simp only [calculateVelocity]
    rw [if_pos hdt]
  · simp only [calculateDirectionChange]
    rw [if_pos hmag]

/-- Witness for `degenerate_kinematics_zero` at concrete inputs. -/
theorem degenerate_kinematics_zero_witness :
    calculateVelocity ⟨1, 2, 3, 1⟩ ⟨4, 5, 3, 1⟩ = ⟨0, 0, 0⟩ ∧
    calculateDirectionChange ⟨0, 0, 0⟩ ⟨1, 1, 5⟩ = 0 :=
  degenerate_kinematics_zero ⟨1, 2, 3, 1⟩ ⟨4, 5, 3, 1⟩ ⟨0, 0, 0⟩ ⟨1, 1, 5⟩
    (by norm_num) (Or.inl rfl)

/-- C7: `calculateAngle` (the joint-angle computation shared by both
rep-counter variants) is symmetric under swapping its outer points and
always returns a value in `[0, 180]`. -/
theorem joint_angle_symm_and_range (a b c : Landmark) :
    calculateAngle a b c = calculateAngle c b a ∧
    0 ≤ calculateAngle a b c ∧ calculateAngle a b c ≤ 180 := by
  have habs : ∀ u v : ℝ, |(u - v) * 180 / Real.pi| = |(v - u) * 180 / Real.pi| := by
    intro u v
    rw [show (u - v) * 180 / Real.pi = -((v - u) * 180 / Real.pi) by ring, abs_neg]
  have hrange : ∀ u v : ℝ, |u| ≤ Real.pi → |v| ≤ Real.pi →
      |(u - v) * 180 / Real.pi| ≤ 360 := by
    intro u v hu hv
    have hπ := Real.pi_pos
    have h1 : |u - v| ≤ 2 * Real.pi := by
      calc |u - v| = |u + -v| := by rw [sub_eq_add_neg]
        _ ≤ |u| + |-v| := abs_add _ _
        _ = |u| + |v| := by rw [abs_neg]
        _ ≤ 2 * Real.pi := by linarith
    have h2 : |(u - v) * 180 / Real.pi| = |u - v| * 180 / Real.pi := by
      rw [abs_div, abs_mul, abs_of_pos hπ]
      norm_num
    rw [h2, div_le_iff₀ hπ]
    nlinarith
  refine ⟨?_, ?_⟩
  · simp only [calculateAngle]
    rw [habs]
  · simp only [calculateAngle]
    have h0 : 0 ≤ |(atan2 (c.y - b.y) (c.x - b.x) - atan2 (a.y - b.y) (a.x - b.x)) * 180 / Real.pi| :=
      abs_nonneg _
    have h360 : |(atan2 (c.y - b.y) (c.x - b.x) - atan2 (a.y - b.y) (a.x - b.x)) * 180 / Real.pi| ≤ 360 :=
      hrange _ _ (abs_atan2_le_pi _ _) (abs_atan2_le_pi _ _)
    split_ifs with h
    · constructor <;> linarith
    · exact ⟨h0, by linarith [not_lt.mp h]⟩

/-- C5 (amended): the external reset commands restore counter, state
machine, rolling windows and statistics displays to their initial
values, but the single cached last position (`lastBallPosition` in the
ball detector, `lastWristPos` in the rep counter) persists across the
reset. -/
theorem reset_command_state (s : BallState) (r : RepState2) :
    (resetCounter s).hitCount = 0 ∧
    (resetCounter s).hitCounterText = 0 ∧
    (resetCounter s).ballPositions = [] ∧
    (resetCounter s).velocityHistory = [] ∧
    (resetCounter s).lastHitTime = 0 ∧
    (resetCounter s).lastBallPosition = s.lastBallPosition ∧
    (resetClick r).repCount = 0 ∧
    (resetClick r).repCounterText = 0 ∧
    (resetClick r).state = RState.READY ∧
    (resetClick r).repTimes = [] ∧
    (resetClick r).lastRepTime = 0 ∧
    (resetClick r).firstRepTime = 0 ∧
    (resetClick r).rpmText = 0 ∧
    (resetClick r).consistencyText = 100 ∧
    (resetClick r).progressWidth = 0 ∧
    (resetClick r).lastWristPos = r.lastWristPos := by
  refine ⟨rfl, rfl, rfl, rfl, rfl, rfl, rfl, rfl, rfl, rfl, rfl, rfl, rfl, rfl, ?_, rfl⟩
  simp only [resetClick, updateProgressBar, repGoal]
  norm_num

/-- Counterexample to C5 as stated: after a reset the claimed
"all stored position history cleared" fails, since both reset handlers
leave the cached last position in place. -/
theorem reset_keeps_last_position :
    (resetClick { initialRepState 0 with lastWristPos := some ⟨1, 2, 3⟩ }).lastWristPos =
      some ⟨1, 2, 3⟩ ∧
    (resetCounter { initialBallState with lastBallPosition := some ⟨3, 4, 1⟩ }).lastBallPosition =
      some ⟨3, 4, 1⟩ :=
  ⟨rfl, rfl⟩

/-- C9: the hit decision, the updated counter and the updated
`lastHitTime` are independent of the contents of `velocityHistory`:
two states agreeing on the position window, the configuration
thresholds and `lastHitTime` but with arbitrary velocity histories
produce the same decision.  The velocity history itself is written on
every step (last conjunct) but never read by the decision. -/
theorem velocity_history_noninterference (s1 s2 : BallState) (now : ℝ)
    (hp : s1.ballPositions = s2.ballPositions)
    (hd : s1.directionChangeThreshold = s2.directionChangeThreshold)
    (hv : s1.velocityThreshold = s2.velocityThreshold)
    (hsen : s1.sensitivity = s2.sensitivity)
    (hm : s1.minTimeBetweenHits = s2.minTimeBetweenHits)
    (hl : s1.lastHitTime = s2.lastHitTime)
    (hc : s1.hitCount = s2.hitCount) :
    (calculateVelocityAndDetectHit s1 now).hitCount =
      (calculateVelocityAndDetectHit s2 now).hitCount ∧
    (calculateVelocityAndDetectHit s1 now).lastHitTime =
      (calculateVelocityAndDetectHit s2 now).lastHitTime ∧
    (calculateVelocityAndDetectHit s1 now).velocityHistory =
      (let vh := s1.velocityHistory ++
        [calculateVelocity
          (s1.ballPositions.getD (s1.ballPositions.length - 2) ⟨0, 0, 0, 0⟩)
          (s1.ballPositions.getD (s1.ballPositions.length - 1) ⟨0, 0, 0, 0⟩)]
       if vh.length > 5 then vh.tail else vh) := by
  simp only [calculateVelocityAndDetectHit, registerHit]
  rw [hp, hd, hv, hsen, hm, hl, hc]
  refine ⟨?_, ?_, ?_⟩ <;> split_ifs <;> simp [hp]

/-- Witness for `velocity_history_noninterference`: two concrete states
differing only in their velocity histories. -/
theorem velocity_history_noninterference_witness :
    (calculateVelocityAndDetectHit initialBallState 7).hitCount =
      (calculateVelocityAndDetectHit
        { initialBallState with velocityHistory := [⟨1, 2, 3⟩] } 7).hitCount :=
  (velocity_history_noninterference initialBallState
    { initialBallState with velocityHistory := [⟨1, 2, 3⟩] } 7
    rfl rfl rfl rfl rfl rfl rfl).1

/-- C10: in both rep-counter variants, when no previous wrist position
is stored the computed wrist velocity is the zero vector, so a state
machine in `READY` stays in `READY` on that first sample regardless of
the sample's landmark values, and the rep counter is unchanged. -/
theorem first_sample_cannot_throw (s1 : RepState1) (s : RepState2) (t : PoseTriple) (now : ℝ)
    (h1s : s1.state = RState.READY) (h1p : s1.lastHandPos = none)
    (hs : s.state = RState.READY) (hp : s.lastWristPos = none) :
    (onResults1 s1 (some t)).state = RState.READY ∧
    (onResults1 s1 (some t)).repCount = s1.repCount ∧
    (onResults2 s (some t) now).state = RState.READY ∧
    (onResults2 s (some t) now).repCount = s.repCount := by
  obtain ⟨rc1, rt1, st1, lhp1⟩ := s1
  obtain ⟨rc, rt, st, lwp, sct, sa, sst, frt, rts, lrt, pw, rpm, ct⟩ := s
  have e1 : st1 = RState.READY := h1s
  have e2 : lhp1 = none := h1p
  have e3 : st = RState.READY := hs
  have e4 : lwp = none := hp
  subst e1 e2 e3 e4
  have hv1 : ¬((0 : ℝ) > 0.03 ∧
      calculateAngle t.shoulder t.elbow t.wrist > 100) := by
    intro h
    exact absurd h.1 (by norm_num)
  have hv2 : ¬((0 : ℝ) > 0.02 ∧ (0 : ℝ) < -0.02 ∧
      calculateAngle t.shoulder t.elbow t.wrist > 120) := by
    intro h
    exact absurd h.1 (by norm_num)
  refine ⟨?_, ?_, ?_, ?_⟩
  · simp only [onResults1]
    rw [if_neg hv1]
  · simp only [onResults1]
    rw [if_neg hv1]
  · cases sa with
    | false => rfl
    | true =>
      simp only [onResults2]
      split_ifs with ht h1 h2 <;> first | rfl | exact absurd h1 hv2 | exact absurd h2 hv2
  · cases sa with
    | false => rfl
    | true =>
      simp only [onResults2]
      split_ifs with ht h1 h2 <;> first | rfl | exact absurd h1 hv2 | exact absurd h2 hv2

/-- Witness for `first_sample_cannot_throw` at concrete states. -/
theorem first_sample_cannot_throw_witness :
    (onResults1 ⟨0, 0, RState.READY, none⟩
        (some ⟨⟨1, 1, 0⟩, ⟨2, 2, 0⟩, ⟨9, 9, 9⟩⟩)).state = RState.READY ∧
    (onResults1 ⟨0, 0, RState.READY, none⟩
        (some ⟨⟨1, 1, 0⟩, ⟨2, 2, 0⟩, ⟨9, 9, 9⟩⟩)).repCount = 0 ∧
    (onResults2 { initialRepState 0 with sessionActive := true }
        (some ⟨⟨1, 1, 0⟩, ⟨2, 2, 0⟩, ⟨9, 9, 9⟩⟩) 100).state = RState.READY ∧
    (onResults2 { initialRepState 0 with sessionActive := true }
        (some ⟨⟨1, 1, 0⟩, ⟨2, 2, 0⟩, ⟨9, 9, 9⟩⟩) 100).repCount = 0 :=
  first_sample_cannot_throw ⟨0, 0, RState.READY, none⟩
    { initialRepState 0 with sessionActive := true }
    ⟨⟨1, 1, 0⟩, ⟨2, 2, 0⟩, ⟨9, 9, 9⟩⟩ 100 rfl rfl rfl rfl

/-- C3: in the richer rep-counter variant, when a sample is processed
more than 2000ms after the last state transition, the machine behaves
exactly as if its state had been reverted to `READY` before any
transition predicate is evaluated, for every possible sample value.
The reset is part of the sample-processing function itself (the source
installs no timer); it therefore happens lazily on the next incoming
sample. -/
theorem stale_state_timeout_reset (s : RepState2) (t : PoseTriple) (now : ℝ)
    (hA : s.sessionActive = true) (hNR : s.state ≠ RState.READY)
    (hT : now - s.stateChangeTime > 2000) :
    onResults2 s (some t) now = onResults2 { s with state := RState.READY } (some t) now := by
  obtain ⟨rc, rt, st, lwp, sct, sa, sst, frt, rts, lrt, pw, rpm, ct⟩ := s
  have hA' : sa = true := hA
  subst hA'
  have hT' : now - sct > 2000 := hT
  simp only [onResults2]
  rw [if_pos hT', if_pos hT']
  rfl

/-- Witness for `stale_state_timeout_reset`: a concrete stale
`THROWING` state processed 3000ms after its last transition. -/
theorem stale_state_timeout_reset_witness :
    onResults2 { initialRepState 0 with sessionActive := true, state := RState.THROWING }
        (some ⟨⟨0, 0, 0⟩, ⟨0, 0, 0⟩, ⟨0, 0, 0⟩⟩) 3000 =
      onResults2 { { initialRepState 0 with sessionActive := true, state := RState.THROWING }
          with state := RState.READY }
        (some ⟨⟨0, 0, 0⟩, ⟨0, 0, 0⟩, ⟨0, 0, 0⟩⟩) 3000 :=
  stale_state_timeout_reset
    { initialRepState 0 with sessionActive := true, state := RState.THROWING }
    ⟨⟨0, 0, 0⟩, ⟨0, 0, 0⟩, ⟨0, 0, 0⟩⟩ 3000 rfl
    (by simp [initialRepState]) (by norm_num [initialRepState])

/-- A timed-out step of the second variant behaves as the same step
started from `READY`. -/
theorem onResults2_timeout_eq (rc rt : ℕ) (st : RState) (lwp : Option Landmark)
    (sct sst frt : ℝ) (rts : List ℝ) (lrt pw : ℝ) (rpm ct : ℤ) (t : PoseTriple) (now : ℝ)
    (hT : now - sct > 2000) :
    onResults2 ⟨rc, rt, st, lwp, sct, true, sst, frt, rts, lrt, pw, rpm, ct⟩ (some t) now =
      onResults2 ⟨rc, rt, RState.READY, lwp, sct, true, sst, frt, rts, lrt, pw, rpm, ct⟩
        (some t) now := by
  simp only [onResults2]
  rw [if_pos hT, if_pos hT]
  rfl

/-- Unfolding of the first variant's step in the `CATCHING` state. -/
theorem onResults1_catching (rc rt : ℕ) (lhp : Option Point2) (t : PoseTriple) :
    onResults1 ⟨rc, rt, RState.CATCHING, lhp⟩ (some t) =
      (if Real.sqrt ((t.wrist.x - t.shoulder.x) ^ 2 + (t.wrist.y - t.shoulder.y) ^ 2) < 0.2 then
        ⟨rc + 1, rc + 1, RState.READY, some ⟨t.wrist.x, t.wrist.y⟩⟩
      else ⟨rc, rt, RState.CATCHING, some ⟨t.wrist.x, t.wrist.y⟩⟩) := rfl

/-- Unfolding of the second variant's step in the `CATCHING` state when
the session is active and the 2000ms timeout has not elapsed. -/
theorem onResults2_catching (rc rt : ℕ) (lwp : Option Landmark) (sct sst frt : ℝ)
    (rts : List ℝ) (lrt pw : ℝ) (rpm ct : ℤ) (t : PoseTriple) (now : ℝ)
    (hT : ¬(now - sct > 2000)) :
    onResults2 ⟨rc, rt, RState.CATCHING, lwp, sct, true, sst, frt, rts, lrt, pw, rpm, ct⟩
        (some t) now =
      (if Real.sqrt ((t.wrist.x - t.shoulder.x) ^ 2 + (t.wrist.y - t.shoulder.y) ^ 2) < 0.3 ∧
          calculateAngle t.shoulder t.elbow t.wrist < 80 then
        { updateConsistency (updateRPM (updateProgressBar
            ⟨rc + 1, rc + 1, RState.CATCHING, some ⟨t.wrist.x, t.wrist.y, t.wrist.z⟩, sct, true,
             sst, (if rc = 0 then now else frt), (if lrt > 0 then rts ++ [now - lrt] else rts),
             now, pw, rpm, ct⟩) now)
          with state := RState.READY, stateChangeTime := now }
      else ⟨rc, rt, RState.CATCHING, some ⟨t.wrist.x, t.wrist.y, t.wrist.z⟩, sct, true, sst,
            frt, rts, lrt, pw, rpm, ct⟩) := by
  simp only [onResults2]
  rw [if_neg hT]
  rfl

set_option maxHeartbeats 1600000 in
/-- C2: in both rep-counter variants in the `CATCHING` state (richer
variant: session active and timeout not elapsed), the rep-completing
transition back to `READY` fires exactly when the wrist-to-shoulder
distance falls below the proximity threshold (0.2, resp. 0.3 together
with elbow angle < 80): on firing the rep counter increments by exactly
1, the inter-rep duration `now - lastRepTime` is appended to the
duration list (skipped when `lastRepTime` is still 0, i.e. on the very
first rep), `lastRepTime` is set to `now` and the progress, RPM and
consistency statistics are recomputed; otherwise the counter and state
are unchanged.  Steps taken in any state other than `CATCHING`
(including a timed-out step) never increment the counter, so
extension-then-reversal without the final return adds nothing. -/
theorem rep_completion_characterization (s1 : RepState1) (s : RepState2) (t : PoseTriple)
    (now : ℝ)
    (h1 : s1.state = RState.CATCHING)
    (hA : s.sessionActive = true) (hS : s.state = RState.CATCHING)
    (hT : ¬(now - s.stateChangeTime > 2000)) :
    (Real.sqrt ((t.wrist.x - t.shoulder.x) ^ 2 + (t.wrist.y - t.shoulder.y) ^ 2) < 0.2 →
      onResults1 s1 (some t) =
        { s1 with lastHandPos := some ⟨t.wrist.x, t.wrist.y⟩,
                  repCount := s1.repCount + 1, repCounterText := s1.repCount + 1,
                  state := RState.READY }) ∧
    (¬(Real.sqrt ((t.wrist.x - t.shoulder.x) ^ 2 + (t.wrist.y - t.shoulder.y) ^ 2) < 0.2) →
      onResults1 s1 (some t) = { s1 with lastHandPos := some ⟨t.wrist.x, t.wrist.y⟩ }) ∧
    (Real.sqrt ((t.wrist.x - t.shoulder.x) ^ 2 + (t.wrist.y - t.shoulder.y) ^ 2) < 0.3 ∧
        calculateAngle t.shoulder t.elbow t.wrist < 80 →
      onResults2 s (some t) now =
        { updateConsistency (updateRPM (updateProgressBar
            { s with lastWristPos := some ⟨t.wrist.x, t.wrist.y, t.wrist.z⟩,
                     repTimes := if s.lastRepTime > 0 then s.repTimes ++ [now - s.lastRepTime]
                                 else s.repTimes,
                     lastRepTime := now,
                     firstRepTime := if s.repCount = 0 then now else s.firstRepTime,
                     repCount := s.repCount + 1,
                     repCounterText := s.repCount + 1 }) now)
          with state := RState.READY, stateChangeTime := now }) ∧
    (¬(Real.sqrt ((t.wrist.x - t.shoulder.x) ^ 2 + (t.wrist.y - t.shoulder.y) ^ 2) < 0.3 ∧
        calculateAngle t.shoulder t.elbow t.wrist < 80) →
      onResults2 s (some t) now =
        { s with lastWristPos := some ⟨t.wrist.x, t.wrist.y, t.wrist.z⟩ }) ∧
    (∀ (r1 : RepState1) (u : PoseTriple), r1.state ≠ RState.CATCHING →
      (onResults1 r1 (some u)).repCount = r1.repCount) ∧
    (∀ (r : RepState2) (u : PoseTriple) (m : ℝ), r.state ≠ RState.CATCHING →
      (onResults2 r (some u) m).repCount = r.repCount) ∧
    (∀ (r : RepState2) (u : PoseTriple) (m : ℝ), m - r.stateChangeTime > 2000 →
      (onResults2 r (some u) m).repCount = r.repCount) := by
  obtain ⟨rc1, rt1, st1, lhp1⟩ := s1
  obtain ⟨rc, rt, st, lwp, sct, sa, sst, frt, rts, lrt, pw, rpm, ct⟩ := s
  have e1 : st1 = RState.CATCHING := h1
  have eA : sa = true := hA
  have eS : st = RState.CATCHING := hS
  have eT : ¬(now - sct > 2000) := hT
  subst e1 eA eS
  refine ⟨?_, ?_, ?_, ?_, ?_, ?_, ?_⟩
  · intro hd
    rw [onResults1_catching, if_pos hd]
  · intro hd
    rw [onResults1_catching, if_neg hd]
  · intro hc
    rw [onResults2_catching rc rt lwp sct sst frt rts lrt pw rpm ct t now eT, if_pos hc]
  · intro hc
    rw [onResults2_catching rc rt lwp sct sst frt rts lrt pw rpm ct t now eT, if_neg hc]
  · intro r1 u h
    obtain ⟨qc, qt, qst, qp⟩ := r1
    cases qst with
    | READY => simp only [onResults1]; split_ifs <;> rfl
    | THROWING => simp only [onResults1]; split_ifs <;> rfl
    | CATCHING => exact absurd rfl h
  · intro r u m h
    obtain ⟨qc, qt, qst, qlwp, qsct, qsa, qsst, qfrt, qrts, qlrt, qpw, qrpm, qct⟩ := r
    cases qsa with
    | false => rfl
    | true =>
      cases qst with
      | READY => simp only [onResults2]; split_ifs <;> rfl
      | THROWING => simp only [onResults2]; split_ifs <;> rfl
      | CATCHING => exact absurd rfl h
  · intro r u m h
    obtain ⟨qc, qt, qst, qlwp, qsct, qsa, qsst, qfrt, qrts, qlrt, qpw, qrpm, qct⟩ := r
    cases qsa with
    | false => rfl
    | true =>
      have h' : m - qsct > 2000 := h
      rw [onResults2_timeout_eq qc qt qst qlwp qsct qsst qfrt qrts qlrt qpw qrpm qct u m h']
      simp only [onResults2]
      split_ifs <;> rfl

/-- Witness for `rep_completion_characterization`: a concrete catch
completion (wrist back at the shoulder, elbow angle 0) at `now = 1000`
from a `CATCHING` state. -/
theorem rep_completion_characterization_witness :
    onResults2 ⟨0, 0, RState.CATCHING, none, 0, true, 0, 0, [], 0, 0, 0, 100⟩
        (some ⟨⟨0.5, 0.5, 0⟩, ⟨0.6, 0.5, 0⟩, ⟨0.5, 0.5, 0⟩⟩) 1000 =
      { updateConsistency (updateRPM (updateProgressBar
          { (⟨0, 0, RState.CATCHING, none, 0, true, 0, 0, [], 0, 0, 0, 100⟩ : RepState2) with
              lastWristPos := some ⟨0.5, 0.5, 0⟩,
              repTimes := if (0 : ℝ) > 0 then ([] : List ℝ) ++ [1000 - 0] else [],
              lastRepTime := 1000,
              firstRepTime := if (0 : ℕ) = 0 then (1000 : ℝ) else 0,
              repCount := 0 + 1,
              repCounterText := 0 + 1 }) 1000)
        with state := RState.READY, stateChangeTime := 1000 } := by
  have hsr : Real.sqrt (((0.5 : ℝ) - 0.5) ^ 2 + ((0.5 : ℝ) - 0.5) ^ 2) < 0.3 := by
    norm_num [Real.sqrt_zero]
  have hang : calculateAngle ⟨0.5, 0.5, 0⟩ ⟨0.6, 0.5, 0⟩ ⟨0.5, 0.5, 0⟩ < 80 := by
    have h0 : calculateAngle ⟨0.5, 0.5, 0⟩ ⟨0.6, 0.5, 0⟩ ⟨0.5, 0.5, 0⟩ = 0 := by
      simp only [calculateAngle]
      rw [sub_self, zero_mul, zero_div, abs_zero, if_neg (by norm_num : ¬((0 : ℝ) > 180))]
    rw [h0]
    norm_num
  exact (rep_completion_characterization ⟨2, 2, RState.CATCHING, none⟩
    ⟨0, 0, RState.CATCHING, none, 0, true, 0, 0, [], 0, 0, 0, 100⟩
    ⟨⟨0.5, 0.5, 0⟩, ⟨0.6, 0.5, 0⟩, ⟨0.5, 0.5, 0⟩⟩ 1000 rfl rfl rfl
    (by norm_num)).2.2.1 ⟨hsr, hang⟩

set_option maxHeartbeats 1600000 in
/-- C1: on each new sample, once the (post-eviction) position window
holds at least 3 samples, a hit fires exactly when
`(directionChange > directionChangeThreshold ∨
speedChange > velocityThreshold * sensitivity) ∧
now - lastHitTime > minTimeBetweenHits`, computed over the last three
window samples; on firing the counter increments by exactly 1 and
`lastHitTime` is set to `now`, otherwise both are unchanged.  With
fewer than 3 samples nothing fires.  The constructor defaults are
120°, 50 units/s, 1000 ms and sensitivity 1, and after a hit at time
`now` any later detection step within `minTimeBetweenHits` of `now`
leaves the counter unchanged. -/
theorem hit_detection_characterization (s : BallState) (pos : DetPos) (now : ℝ) :
    (let sample : BallPos :=
       ⟨pos.x, pos.y, now, if pos.confidence = 0 then 1 else pos.confidence⟩
     let w := s.ballPositions ++ [sample]
     let w2 := if w.length > s.maxPositionHistory then w.tail else w
     let velocity1 := calculateVelocity (w2.getD (w2.length - 3) ⟨0, 0, 0, 0⟩)
       (w2.getD (w2.length - 2) ⟨0, 0, 0, 0⟩)
     let velocity2 := calculateVelocity (w2.getD (w2.length - 2) ⟨0, 0, 0, 0⟩)
       (w2.getD (w2.length - 1) ⟨0, 0, 0, 0⟩)
     let fire := (calculateDirectionChange velocity1 velocity2 > s.directionChangeThreshold ∨
        |velocity2.magnitude - velocity1.magnitude| > s.velocityThreshold * s.sensitivity) ∧
        now - s.lastHitTime > s.minTimeBetweenHits
     (3 ≤ w2.length →
        (updateBallTracking s pos now).hitCount =
          (if fire then s.hitCount + 1 else s.hitCount) ∧
        (updateBallTracking s pos now).lastHitTime =
          (if fire then now else s.lastHitTime)) ∧
     (w2.length < 3 →
        (updateBallTracking s pos now).hitCount = s.hitCount ∧
        (updateBallTracking s pos now).lastHitTime = s.lastHitTime)) ∧
    (initialBallState.directionChangeThreshold = 120 ∧
     initialBallState.velocityThreshold = 50 ∧
     initialBallState.minTimeBetweenHits = 1000 ∧
     initialBallState.sensitivity = 1) ∧
    (∀ (s2 : BallState) (now2 : ℝ), s2.lastHitTime = now →
       s2.minTimeBetweenHits = s.minTimeBetweenHits → ¬(now2 - now > s.minTimeBetweenHits) →
       (calculateVelocityAndDetectHit s2 now2).hitCount = s2.hitCount) := by
  dsimp only
  refine ⟨⟨?_, ?_⟩, ⟨by norm_num [initialBallState], by norm_num [initialBallState],
    by norm_num [initialBallState], by norm_num [initialBallState]⟩, ?_⟩
  · intro h3
    simp only [updateBallTracking, calculateVelocityAndDetectHit, registerHit]
    rw [if_pos h3]
    constructor <;> split_ifs <;> rfl
  · intro h
    simp only [updateBallTracking]
    rw [if_neg (not_le.mpr h)]
    exact ⟨rfl, rfl⟩
  · intro s2 now2 h1 h2 h3
    simp only [calculateVelocityAndDetectHit, registerHit]
    rw [if_neg]
    · intro hcond
      rw [h1, h2] at hcond
      exact h3 hcond.2

set_option maxHeartbeats 1600000 in
/-- Witness for `hit_detection_characterization`: a window that moves
nowhere for 1000ms and then jumps 100px in 1000ms (speed change
100 > 50·1) with `lastHitTime = 0` fires at `now = 2000`, leaving the
counter at 1 and `lastHitTime` at 2000. -/
theorem hit_detection_characterization_witness :
    (updateBallTracking
      ⟨0, 0, [⟨0, 0, 0, 1⟩, ⟨0, 0, 1000, 1⟩], none, [], 1, 50, 120, 1000, 0, 10⟩
      ⟨100, 0, 1⟩ 2000).hitCount = 1 ∧
    (updateBallTracking
      ⟨0, 0, [⟨0, 0, 0, 1⟩, ⟨0, 0, 1000, 1⟩], none, [], 1, 50, 120, 1000, 0, 10⟩
      ⟨100, 0, 1⟩ 2000).lastHitTime = 2000 := by
  have hv1 : calculateVelocity ⟨0, 0, 0, 1⟩ ⟨0, 0, 1000, 1⟩ = ⟨0, 0, 0⟩ := by
    simp only [calculateVelocity]
    rw [if_neg]
    · norm_num [Real.sqrt_zero]
    · norm_num
  have hsq : Real.sqrt 10000 = 100 := by
    rw [show (10000 : ℝ) = 100 ^ 2 by norm_num]
    exact Real.sqrt_sq (by norm_num)
  have hv2 : calculateVelocity ⟨0, 0, 1000, 1⟩ ⟨100, 0, 2000, 1⟩ = ⟨100, 0, 100⟩ := by
    simp only [calculateVelocity]
    rw [if_neg]
    · norm_num [Velocity.mk.injEq, hsq]
    · norm_num
  have hdir : calculateDirectionChange ⟨0, 0, 0⟩ ⟨100, 0, 100⟩ = 0 := by
    simp [calculateDirectionChange]
  have H := (hit_detection_characterization
    ⟨0, 0, [⟨0, 0, 0, 1⟩, ⟨0, 0, 1000, 1⟩], none, [], 1, 50, 120, 1000, 0, 10⟩
    ⟨100, 0, 1⟩ 2000).1.1 (by norm_num)
  norm_num [List.getD] at H
  rw [hv1, hv2, hdir] at H
  norm_num at H
  exact H

/-- A list kept at capacity `n` by push-then-shift stays at capacity `n`. -/
theorem trim_cap_length {α : Type} (l : List α) (a : α) (n : ℕ) (h : l.length ≤ n) :
    (if (l ++ [a]).length > n then (l ++ [a]).tail else l ++ [a]).length ≤ n := by
  split_ifs with h1
  · simp only [List.length_tail, List.length_append, List.length_cons, List.length_nil]
    omega
  · simp only [List.length_append, List.length_cons, List.length_nil] at h1 ⊢
    omega

/-- Push-then-shift preserves pairwise chains. -/
theorem chain_trim {α : Type} (R : α → α → Prop) (l : List α) (a : α) (n : ℕ)
    (hc : List.Chain' R (l ++ [a])) :
    List.Chain' R (if (l ++ [a]).length > n then (l ++ [a]).tail else l ++ [a]) := by
  split_ifs with h
  · exact hc.tail
  · exact hc

/-- The detection step never changes the position window. -/
theorem calcVDH_ballPositions (s : BallState) (now : ℝ) :
    (calculateVelocityAndDetectHit s now).ballPositions = s.ballPositions := by
  simp only [calculateVelocityAndDetectHit, registerHit]
  split_ifs <;> rfl

/-- The detection step pushes the newest velocity and trims the
velocity history to its capacity of 5. -/
theorem calcVDH_velocityHistory (s : BallState) (now : ℝ) :
    (calculateVelocityAndDetectHit s now).velocityHistory =
      (let vh := s.velocityHistory ++
        [calculateVelocity (s.ballPositions.getD (s.ballPositions.length - 2) ⟨0, 0, 0, 0⟩)
          (s.ballPositions.getD (s.ballPositions.length - 1) ⟨0, 0, 0, 0⟩)]
       if vh.length > 5 then vh.tail else vh) := by
  simp only [calculateVelocityAndDetectHit, registerHit]
  split_ifs <;> rfl

/-- The detection step keeps the velocity history within capacity 5. -/
theorem calcVDH_velocityHistory_length (s : BallState) (now : ℝ)
    (h : s.velocityHistory.length ≤ 5) :
    (calculateVelocityAndDetectHit s now).velocityHistory.length ≤ 5 := by
  rw [calcVDH_velocityHistory]
  exact trim_cap_length _ _ _ h

set_option maxHeartbeats 1600000 in
/-- C8 (amended): pushing a sample preserves the window invariants
`length ≤ maxPositionHistory` (capacity 10 by default) and
`velocityHistory.length ≤ 5`, evicting the oldest sample FIFO when the
capacity would be exceeded (last conjunct); the timestamps remain
strictly increasing provided the pushed sample's timestamp strictly
exceeds every stored one — with an equal timestamp (possible at
millisecond clock resolution) strictness is lost, see the
counterexample. -/
theorem window_invariants_preserved (s : BallState) (pos : DetPos) (now : ℝ)
    (hcap : s.ballPositions.length ≤ s.maxPositionHistory)
    (hvh : s.velocityHistory.length ≤ 5)
    (hchain : List.Chain' (fun p q : BallPos => p.time < q.time) s.ballPositions)
    (hnow : ∀ p ∈ s.ballPositions, p.time < now) :
    (updateBallTracking s pos now).ballPositions.length ≤ s.maxPositionHistory ∧
    (updateBallTracking s pos now).velocityHistory.length ≤ 5 ∧
    List.Chain' (fun p q : BallPos => p.time < q.time)
      (updateBallTracking s pos now).ballPositions ∧
    (updateBallTracking s pos now).ballPositions =
      (let sample : BallPos :=
         ⟨pos.x, pos.y, now, if pos.confidence = 0 then 1 else pos.confidence⟩
       let w := s.ballPositions ++ [sample]
       if w.length > s.maxPositionHistory then w.tail else w) := by
  have hbp : (updateBallTracking s pos now).ballPositions =
      (let sample : BallPos :=
         ⟨pos.x, pos.y, now, if pos.confidence = 0 then 1 else pos.confidence⟩
       let w := s.ballPositions ++ [sample]
       if w.length > s.maxPositionHistory then w.tail else w) := by
    simp only [updateBallTracking]
    split_ifs <;> first | rfl | (rw [calcVDH_ballPositions])
  have hchain2 : List.Chain' (fun p q : BallPos => p.time < q.time)
      (s.ballPositions ++
        [(⟨pos.x, pos.y, now, if pos.confidence = 0 then 1 else pos.confidence⟩ : BallPos)]) := by
    rw [List.chain'_append]
    refine ⟨hchain, List.chain'_singleton _, ?_⟩
    intro x hx y hy
    obtain ⟨hne, hxeq⟩ := List.mem_getLast?_eq_getLast hx
    subst hxeq
    simp only [List.head?_cons, Option.mem_def, Option.some.injEq] at hy
    subst hy
    exact hnow _ (List.getLast_mem hne)
  refine ⟨?_, ?_, ?_, hbp⟩
  · rw [hbp]
    exact trim_cap_length _ _ _ hcap
  · simp only [updateBallTracking]
    split_ifs <;> first | exact calcVDH_velocityHistory_length _ _ hvh | exact hvh
  · rw [hbp]
    exact chain_trim _ _ _ _ hchain2

/-- Witness for `window_invariants_preserved`: pushing a later sample
onto a one-sample window keeps length ≤ 10 and strict timestamps. -/
theorem window_invariants_preserved_witness :
    (updateBallTracking ⟨0, 0, [⟨0, 0, 0, 1⟩], none, [], 1, 50, 120, 1000, 0, 10⟩
      ⟨1, 1, 1⟩ 5).ballPositions.length ≤ 10 ∧
    List.Chain' (fun p q : BallPos => p.time < q.time)
      (updateBallTracking ⟨0, 0, [⟨0, 0, 0, 1⟩], none, [], 1, 50, 120, 1000, 0, 10⟩
        ⟨1, 1, 1⟩ 5).ballPositions := by
  have H := window_invariants_preserved
    ⟨0, 0, [⟨0, 0, 0, 1⟩], none, [], 1, 50, 120, 1000, 0, 10⟩ ⟨1, 1, 1⟩ 5
    (by norm_num) (by norm_num) (List.chain'_singleton _)
    (by
      intro p hp
      simp only [List.mem_singleton] at hp
      subst hp
      norm_num)
  exact ⟨H.1, H.2.2.1⟩

/-- Counterexample to C8 as stated: pushing a sample whose timestamp
equals the newest stored one (two frames in the same millisecond)
produces a window whose timestamps are not strictly increasing, even
though the pre-push window satisfied the claimed invariant. -/
theorem window_timestamp_not_strict :
    List.Chain' (fun p q : BallPos => p.time < q.time) ([⟨0, 0, 5, 1⟩] : List BallPos) ∧
    ([⟨0, 0, 5, 1⟩] : List BallPos).length ≤ 10 ∧
    ¬ List.Chain' (fun p q : BallPos => p.time < q.time)
      (updateBallTracking ⟨0, 0, [⟨0, 0, 5, 1⟩], none, [], 1, 50, 120, 1000, 0, 10⟩
        ⟨7, 8, 1⟩ 5).ballPositions := by
  refine ⟨List.chain'_singleton _, by norm_num, ?_⟩
  have hbp : (updateBallTracking ⟨0, 0, [⟨0, 0, 5, 1⟩], none, [], 1, 50, 120, 1000, 0, 10⟩
      ⟨7, 8, 1⟩ 5).ballPositions =
      [⟨0, 0, 5, 1⟩, ⟨7, 8, 5, if (1 : ℝ) = 0 then 1 else 1⟩] := rfl
  rw [hbp]
  norm_num [List.chain'_cons]

/-- With at least two recorded durations, `updateConsistency` displays
the rounded clamped score computed from the standard deviation of the
recorded durations. -/
theorem updateConsistency_text (s : RepState2) (h : 2 ≤ s.repTimes.length) :
    (updateConsistency s).consistencyText =
      round (max 0 (100 - Real.sqrt
        ((s.repTimes.map (fun x => (x - s.repTimes.sum / (s.repTimes.length : ℝ)) ^ 2)).sum /
          (s.repTimes.length : ℝ)) / 5)) := by
  simp only [updateConsistency]
  rw [if_neg (not_lt.mpr h)]

/-- A duration list whose standard deviation is at least 500 displays a
consistency of 0. -/
theorem updateConsistency_clamped (l : List ℝ) (v : ℝ) (hl : 2 ≤ l.length)
    (hv : Real.sqrt ((l.map (fun x => (x - l.sum / (l.length : ℝ)) ^ 2)).sum /
      (l.length : ℝ)) = v)
    (hv5 : 500 ≤ v) :
    (updateConsistency
      ⟨0, 0, RState.READY, none, 0, false, 0, 0, l, 0, 0, 0, 100⟩).consistencyText = 0 := by
  rw [updateConsistency_text _ hl]
  dsimp only
  rw [hv, max_eq_left (by linarith : 100 - v / 5 ≤ 0), round_zero]

/-- C4 (amended): the consistency display starts at 100 and is left
untouched while fewer than two inter-rep durations are recorded; with
at least two recorded durations `updateConsistency` displays
`round (max 0 (100 - stdDev/5))` where `stdDev` is the standard
deviation of the recorded durations; the score `max 0 (100 - d/5)` lies
in `[0, 100]` for every `d ≥ 0`, is non-increasing in `d`, and is
strictly decreasing while it is positive (`d < 500`) — but not beyond,
where it is clamped to 0 (see the counterexample). -/
theorem consistency_score_properties :
    (∀ t0 : ℝ, (initialRepState t0).consistencyText = 100) ∧
    (∀ s : RepState2, s.repTimes.length < 2 → updateConsistency s = s) ∧
    (∀ s : RepState2, 2 ≤ s.repTimes.length →
      (updateConsistency s).consistencyText =
        round (max 0 (100 - Real.sqrt
          ((s.repTimes.map
            (fun x => (x - s.repTimes.sum / (s.repTimes.length : ℝ)) ^ 2)).sum /
            (s.repTimes.length : ℝ)) / 5))) ∧
    (∀ d : ℝ, 0 ≤ d → 0 ≤ max 0 (100 - d / 5) ∧ max 0 (100 - d / 5) ≤ 100) ∧
    (∀ d1 d2 : ℝ, d1 ≤ d2 → max 0 (100 - d2 / 5) ≤ max 0 (100 - d1 / 5)) ∧
    (∀ d1 d2 : ℝ, d1 < d2 → d1 < 500 → max 0 (100 - d2 / 5) < max 0 (100 - d1 / 5)) := by
  refine ⟨fun t0 => rfl, ?_, fun s h => updateConsistency_text s h, ?_, ?_, ?_⟩
  · intro s h
    simp only [updateConsistency]
    rw [if_pos h]
  · intro d hd
    refine ⟨le_max_left _ _, ?_⟩
    have : 0 ≤ d / 5 := by positivity
    exact max_le (by norm_num) (by linarith)
  · intro d1 d2 h
    exact max_le_max le_rfl (by linarith)
  · intro d1 d2 h h500
    have h1 : 0 < 100 - d1 / 5 := by linarith
    rw [max_eq_right h1.le]
    rcases le_or_lt (100 - d2 / 5) 0 with hc | hc
    · rw [max_eq_left hc]
      exact h1
    · rw [max_eq_right hc.le]
      linarith

/-- Witness for `consistency_score_properties`: with no recorded
durations `updateConsistency` leaves the initial state untouched, and
the score at stdDev 5 strictly exceeds the score at stdDev 10. -/
theorem consistency_score_properties_witness :
    updateConsistency (initialRepState 0) = initialRepState 0 ∧
    max (0 : ℝ) (100 - 10 / 5) < max 0 (100 - 5 / 5) :=
  ⟨consistency_score_properties.2.1 (initialRepState 0) (by norm_num [initialRepState]),
   consistency_score_properties.2.2.2.2.2 5 10 (by norm_num) (by norm_num)⟩

/-- Counterexample to C4 as stated: the duration lists `[0, 2000]` and
`[0, 4000]` have standard deviations 1000 < 2000, yet `updateConsistency`
displays the same score (0) for both, because `max 0 (100 - stdDev/5)`
is clamped at 0 — the score is not strictly decreasing in the standard
deviation. -/
theorem consistency_not_strictly_decreasing :
    Real.sqrt
      ((([0, 2000] : List ℝ).map
        (fun x => (x - ([0, 2000] : List ℝ).sum / (([0, 2000] : List ℝ).length : ℝ)) ^ 2)).sum /
        (([0, 2000] : List ℝ).length : ℝ)) <
      Real.sqrt
        ((([0, 4000] : List ℝ).map
          (fun x => (x - ([0, 4000] : List ℝ).sum / (([0, 4000] : List ℝ).length : ℝ)) ^ 2)).sum /
          (([0, 4000] : List ℝ).length : ℝ)) ∧
    (updateConsistency
      ⟨0, 0, RState.READY, none, 0, false, 0, 0, [0, 2000], 0, 0, 0, 100⟩).consistencyText =
      (updateConsistency
        ⟨0, 0, RState.READY, none, 0, false, 0, 0, [0, 4000], 0, 0, 0, 100⟩).consistencyText := by
  have hA : (([0, 2000] : List ℝ).map
      (fun x => (x - ([0, 2000] : List ℝ).sum / (([0, 2000] : List ℝ).length : ℝ)) ^ 2)).sum /
      (([0, 2000] : List ℝ).length : ℝ) = 1000000 := by
    norm_num
  have hB : (([0, 4000] : List ℝ).map
      (fun x => (x - ([0, 4000] : List ℝ).sum / (([0, 4000] : List ℝ).length : ℝ)) ^ 2)).sum /
      (([0, 4000] : List ℝ).length : ℝ) = 4000000 := by
    norm_num
  have hsA : Real.sqrt
      ((([0, 2000] : List ℝ).map
        (fun x => (x - ([0, 2000] : List ℝ).sum / (([0, 2000] : List ℝ).length : ℝ)) ^ 2)).sum /
        (([0, 2000] : List ℝ).length : ℝ)) = 1000 := by
    rw [hA, show (1000000 : ℝ) = 1000 ^ 2 by norm_num]
    exact Real.sqrt_sq (by norm_num)
  have hsB : Real.sqrt
      ((([0, 4000] : List ℝ).map
        (fun x => (x - ([0, 4000] : List ℝ).sum / (([0, 4000] : List ℝ).length : ℝ)) ^ 2)).sum /
        (([0, 4000] : List ℝ).length : ℝ)) = 2000 := by
    rw [hB, show (4000000 : ℝ) = 2000 ^ 2 by norm_num]
    exact Real.sqrt_sq (by norm_num)
  refine ⟨?_, ?_⟩
  · rw [hsA, hsB]
    norm_num
  · rw [updateConsistency_clamped [0, 2000] 1000 (by norm_num) hsA (by norm_num),
        updateConsistency_clamped [0, 4000] 2000 (by norm_num) hsB (by norm_num)]

end LaxCounter
